import Mathlib

/-!
Verification development for the blueteeth Bluetooth audio manager
(src/blueteeth.py).  The Python source shells out to bluetoothctl and
wpctl and classifies their textual transcripts; the defs below are a
shallow embedding of that text-processing and classification logic.
External processes are modelled by passing their transcripts (stdout,
stderr, and re-query output) as explicit arguments, and config-file
writes are modelled as an explicit list of saved snapshots.
-/

/-! ## Python string primitives -/

/-- Characters accepted by Python str.isspace / stripped by str.strip:
ASCII whitespace, the C0 separators, NEL, and the Unicode space
category. -/
def pyIsSpace (c : Char) : Bool :=
  c = ' ' || c = '\t' || c = '\n' || c = '\r' || c = '\x0b' || c = '\x0c' ||
  c = '\x1c' || c = '\x1d' || c = '\x1e' || c = '\x1f' || c = '\x85' || c = '\xa0' ||
  c = ' ' || (' ' ≤ c && c ≤ ' ') || c = ' ' || c = ' ' ||
  c = ' ' || c = ' ' || c = '　'

/-- Strip `pyIsSpace` characters from both ends of a character list. -/
def stripChars (cs : List Char) : List Char :=
  ((cs.dropWhile pyIsSpace).reverse.dropWhile pyIsSpace).reverse

/-- Python str.strip(). -/
def pyStrip (s : String) : String := String.mk (stripChars s.data)

/-- Line-break characters recognised by Python str.splitlines
(\r\n is handled as a single break by pySplitlines). -/
def isLineBreak (c : Char) : Bool :=
  c = '\n' || c = '\r' || c = '\x0b' || c = '\x0c' || c = '\x1c' || c = '\x1d' ||
  c = '\x1e' || c = '\x85' || c = ' ' || c = ' '

/-- Worker for `pySplitlines`; `acc` holds the current (reversed) line
and the fuel (initially the input length, which each step exceeds the
consumed characters of) makes the recursion structural. -/
def splitlinesAux : Nat → List Char → List Char → List String
  | 0, acc, _ => if acc.isEmpty then [] else [String.mk acc.reverse]
  | _+1, acc, [] => if acc.isEmpty then [] else [String.mk acc.reverse]
  | n+1, acc, c :: t =>
    if c = '\r' then
      String.mk acc.reverse ::
        splitlinesAux n [] (if t.head? = some '\n' then t.tail else t)
    else if isLineBreak c then
      String.mk acc.reverse :: splitlinesAux n [] t
    else
      splitlinesAux n (c :: acc) t

/-- Python str.splitlines(): no trailing empty line, \r\n counts once. -/
def pySplitlines (s : String) : List String :=
  splitlinesAux s.data.length [] s.data

/-- Substring test on character lists (Python's `needle in hay`). -/
def containsSub (needle : List Char) : List Char → Bool
  | [] => needle.isEmpty
  | c :: t => needle.isPrefixOf (c :: t) || containsSub needle t

/-- Python's `needle in hay` for strings. -/
def pyIn (needle hay : String) : Bool := containsSub needle.data hay.data

/-! ## Device listing parser (BluetoothManager.get_devices) -/

/-- A parsed device line:  mac address and display name. -/
structure Device where
  mac : String
  name : String
deriving DecidableEq

/-- Python `s.split(sep, n)` (specialised to a one-character separator):
split at the first `n` occurrences of `sep`; adjacent separators yield
empty fields; the final element is the untouched remainder. -/
def splitN (sep : Char) : Nat → List Char → List (List Char)
  | _, [] => [[]]
  | 0, c :: t => [c :: t]
  | n+1, c :: t =>
    if c = sep then [] :: splitN sep n t
    else
      match splitN sep (n+1) t with
      | [] => [[c]]
      | f :: fs => (c :: f) :: fs

/-- One line of `bluetoothctl devices` output, per the source:
`line.startswith('Device')`, then `line.split(' ', 2)`; a record is
produced when the split has at least three parts. -/
def parseDeviceLine (line : String) : Option Device :=
  if "Device".data.isPrefixOf line.data then
    match splitN ' ' 2 line.data with
    | [_, p1, p2] => some ⟨String.mk p1, String.mk p2⟩
    | _ => none
  else none

/-- BluetoothManager.get_devices applied to a captured stdout transcript. -/
def get_devices (stdout : String) : List Device :=
  (pySplitlines stdout).filterMap parseDeviceLine

/-- Split at every occurrence of `sep` (Python `s.split(sep)`). -/
def splitAll (sep : Char) : List Char → List (List Char)
  | [] => [[]]
  | c :: t =>
    if c = sep then [] :: splitAll sep t
    else
      match splitAll sep t with
      | [] => [[c]]
      | f :: fs => (c :: f) :: fs

/-- Rejoin fields with the separator (inverse of `splitAll`). -/
def joinSep (sep : Char) : List (List Char) → List Char
  | [] => []
  | [f] => f
  | f :: g :: t => f ++ sep :: joinSep sep (g :: t)

/-- Device-line parser written the way the amended claim words it:
split the line at every single space into fields, discard the first
field, take the second as the mac and the remaining fields rejoined
with spaces (so internal whitespace is preserved) as the name. -/
def parseDeviceLineSpaceSpec (line : String) : Option Device :=
  if "Device".data.isPrefixOf line.data then
    match splitAll ' ' line.data with
    | _ :: f1 :: f2 :: rest => some ⟨String.mk f1, String.mk (joinSep ' ' (f2 :: rest))⟩
    | _ => none
  else none

/-- Device parser following the amended claim's words. -/
def get_devicesSpaceSpec (stdout : String) : List Device :=
  (pySplitlines stdout).filterMap parseDeviceLineSpaceSpec

/-- At most three fields separated by runs of (general) whitespace,
the last being the raw remainder: this is what the original claim's
words "at most three whitespace-separated fields" describe. -/
def wsFields3 (cs : List Char) : List (List Char) :=
  let cs1 := cs.dropWhile pyIsSpace
  if cs1.isEmpty then []
  else
    let f1 := cs1.takeWhile (fun c => !pyIsSpace c)
    let r1 := (cs1.dropWhile (fun c => !pyIsSpace c)).dropWhile pyIsSpace
    if r1.isEmpty then [f1]
    else
      let f2 := r1.takeWhile (fun c => !pyIsSpace c)
      let r2 := (r1.dropWhile (fun c => !pyIsSpace c)).dropWhile pyIsSpace
      if r2.isEmpty then [f1, f2] else [f1, f2, r2]

/-- Device-line parser exactly as the claim words it: lines starting
with "Device", split into at most three whitespace-separated fields,
second field the mac, remainder the name. -/
def parseDeviceLineClaim (line : String) : Option Device :=
  if "Device".data.isPrefixOf line.data then
    match wsFields3 line.data with
    | [_, f1, f2] => some ⟨String.mk f1, String.mk f2⟩
    | _ => none
  else none

/-- Device parser following the original claim's words. -/
def get_devicesClaim (stdout : String) : List Device :=
  (pySplitlines stdout).filterMap parseDeviceLineClaim

/-! ## Device info parser (BluetoothManager.get_device_info) -/

/-- Python dict assignment `m[k] = v`: overwrite in place or append. -/
def upsert : List (String × String) → String → String → List (String × String)
  | [], k, v => [(k, v)]
  | (k2, v2) :: rest, k, v =>
    if k2 = k then (k, v) :: rest else (k2, v2) :: upsert rest k v

/-- One line of `bluetoothctl info` output: strip, and if it contains a
colon split at the first colon and strip both sides. -/
def lineKV (line : String) : Option (String × String) :=
  let l := stripChars line.data
  if ':' ∈ l then
    let k := l.takeWhile (fun c => c ≠ ':')
    let v := (l.dropWhile (fun c => c ≠ ':')).tail
    some (String.mk (stripChars k), String.mk (stripChars v))
  else none

/-- Info-map accumulation over a list of transcript lines. -/
def deviceInfoLines (init : List (String × String)) (ls : List String) :
    List (String × String) :=
  ls.foldl (fun m line =>
    match lineKV line with
    | some (k, v) => upsert m k v
    | none => m) init

/-- BluetoothManager.get_device_info applied to a captured stdout
transcript: the map is seeded with the "mac" key. -/
def get_device_info (mac stdout : String) : List (String × String) :=
  deviceInfoLines [("mac", mac)] (pySplitlines stdout)

/-- Python dict.get: first (and with `upsert`, only) binding of the key. -/
def infoGet (m : List (String × String)) (k : String) : Option String :=
  m.lookup k

/-! ## Config record and persistence (load_config / save_config) -/

/-- The persisted configuration record, with the source's three fields. -/
structure Config where
  last_device : Option String
  trusted_devices : List String
  default_profile : String
deriving DecidableEq

/-- A JSON value, as written by json.dump / read by json.load. -/
inductive JVal where
  | jnull
  | jbool (b : Bool)
  | jnum (n : Int)
  | jstr (s : String)
  | jarr (xs : List JVal)
  | jobj (fields : List (String × JVal))

/-- save_config: the JSON document json.dump writes for the config. -/
def save_config (c : Config) : JVal :=
  .jobj [("last_device", match c.last_device with
            | none => .jnull
            | some m => .jstr m),
         ("trusted_devices", .jarr (c.trusted_devices.map .jstr)),
         ("default_profile", .jstr c.default_profile)]

/-- Decode a JSON string. -/
def decodeStr : JVal → Option String
  | .jstr s => some s
  | _ => none

/-- Decode a JSON array of strings. -/
def decodeStrList : JVal → Option (List String)
  | .jarr xs =>
    xs.foldr (fun x acc =>
      match decodeStr x, acc with
      | some s, some l => some (s :: l)
      | _, _ => none) (some [])
  | _ => none

/-- Decode the nullable last_device field. -/
def decodeLast : JVal → Option (Option String)
  | .jnull => some none
  | .jstr s => some (some s)
  | _ => none

/-- load_config: json.load followed by the source's three field
accesses; `none` models a document of the wrong shape. -/
def load_config (v : JVal) : Option Config :=
  match v with
  | .jobj fs =>
    match fs.lookup "last_device", fs.lookup "trusted_devices",
          fs.lookup "default_profile" with
    | some lv, some tv, some dv =>
      match decodeLast lv, decodeStrList tv, decodeStr dv with
      | some l, some t, some d => some ⟨l, t, d⟩
      | _, _, _ => none
    | _, _, _ => none
  | _ => none

/-! ## Connect classification (BluetoothManager.connect_device) -/

/-- Result of one connect attempt: final in-memory config, the config
snapshots written to disk by save_config (in order), and the returned
(success, message) pair. -/
structure ConnectResult where
  config : Config
  saves : List Config
  success : Bool
  message : String
deriving DecidableEq

/-- Lines 90-93 of the source: add the mac to trusted_devices (and
save) when it is not already there.  Returns the new config and the
snapshots written. -/
def trustAdd (cfg : Config) (mac : String) : Config × List Config :=
  if mac ∈ cfg.trusted_devices then (cfg, [])
  else
    let c := { cfg with trusted_devices := cfg.trusted_devices ++ [mac] }
    (c, [c])

/-- The shared success path: set last_device, save, report success.
(The subsequent set_audio_profile call is a no-op in the source.) -/
def commitLast (cfg : Config) (saves : List Config) (mac : String) : ConnectResult :=
  let c := { cfg with last_device := some mac }
  ⟨c, saves ++ [c], true, "Connected successfully"⟩

/-- Signal: "br-connection-refused" occurs in stdout or stderr. -/
def connectionRefusedSig (stdout stderr : String) : Bool :=
  pyIn "br-connection-refused" stdout || pyIn "br-connection-refused" stderr

/-- Signal: some stdout line contains "Connected: yes". -/
def connectedYesSig (stdout : String) : Bool :=
  (pySplitlines stdout).any (fun l => pyIn "Connected: yes" l)

/-- Signal: some stdout line contains "Failed to connect". -/
def connectionFailedSig (stdout : String) : Bool :=
  (pySplitlines stdout).any (fun l => pyIn "Failed to connect" l)

/-- BluetoothManager.connect_device, with the `bluetoothctl connect`
transcript (stdout, stderr) and the transcript of the live
`info <mac>` re-query passed explicitly. -/
def connect_device (cfg : Config) (mac stdout stderr requery : String) :
    ConnectResult :=
  let cfg1 := (trustAdd cfg mac).1
  let saves1 := (trustAdd cfg mac).2
  if connectionRefusedSig stdout stderr then
    ⟨cfg1, saves1, false,
     "Connection refused - ensure device is powered on, in pairing mode, and not connected to another device"⟩
  else if connectedYesSig stdout && connectionFailedSig stdout then
    if infoGet (get_device_info mac requery) "Connected" = some "yes" then
      commitLast cfg1 saves1 mac
    else
      ⟨cfg1, saves1, false,
       "Connection was established but immediately lost - device may have rejected the connection"⟩
  else if pyIn "Connection successful" stdout && !connectionFailedSig stdout then
    commitLast cfg1 saves1 mac
  else if pyIn "Failed to connect" stdout then
    ⟨cfg1, saves1, false,
     if pyIn "org.bluez.Error" stdout then
       match (pySplitlines stdout).find? (fun l => pyIn "org.bluez.Error" l) with
       | some l => pyStrip l
       | none => "Connection failed"
     else "Connection failed"⟩
  else
    if infoGet (get_device_info mac requery) "Connected" = some "yes" then
      commitLast cfg1 saves1 mac
    else
      ⟨cfg1, saves1, false, "Connection failed - no response from device"⟩

/-! ## Pair classification (BluetoothManager.pair_device) -/

/-- Word characters of the regex \w (ASCII letters, digits, underscore;
bluez error identifiers are ASCII). -/
def isWordChar (c : Char) : Bool := c.isAlphanum || c = '_'

/-- Maximal leading run of word characters. -/
def takeWordRun : List Char → List Char
  | [] => []
  | c :: t => if isWordChar c then c :: takeWordRun t else []

/-- The literal part of the pattern org\.bluez\.Error\.(\w+). -/
def bluezPat : List Char := "org.bluez.Error.".data

/-- Leftmost match of org\.bluez\.Error\.(\w+) (re.search): scan for
the first position where the literal prefix is followed by at least
one word character; the captured group is the maximal word run. -/
def scanBluezToken : List Char → Option String
  | [] => none
  | c :: t =>
    if bluezPat.isPrefixOf (c :: t) then
      let run := takeWordRun ((c :: t).drop bluezPat.length)
      if run.isEmpty then scanBluezToken t else some (String.mk run)
    else scanBluezToken t

/-- The error token re.search extracts from a pair transcript. -/
def extractBluezError (stdout : String) : Option String :=
  scanBluezToken stdout.data

/-- BluetoothManager.pair_device classification of the `pair <mac>`
stdout transcript. -/
def pair_device (stdout : String) : Bool × String :=
  if pyIn "Pairing successful" stdout then (true, "Pairing successful")
  else if pyIn "Already Paired" stdout then (true, "Device already paired")
  else if pyIn "Device not available" stdout then
    (false, "Device not found - make sure it\x27s in pairing mode and in range")
  else if pyIn "Failed to pair" stdout then
    match extractBluezError stdout with
    | some t =>
      if t = "AuthenticationFailed" then
        (false, "Authentication failed - check PIN or try again")
      else if t = "AuthenticationCanceled" then
        (false, "Pairing cancelled on device")
      else (false, "Pairing failed: " ++ t)
    | none => (false, "Pairing failed")
  else (false, "Pairing failed - unknown error")

/-! ## Sink list parser (PipeWireManager.get_sinks) -/

/-- An audio sink record. -/
structure Sink where
  id : String
  name : String
  default : Bool
deriving DecidableEq

/-- Drop the box-drawing characters the source strips
(line.replace for each of │ ├ └). -/
def stripBox (cs : List Char) : List Char :=
  cs.filter (fun c => !(c = '│' || c = '├' || c = '└'))

/-- Does `tail` match the regex remainder (?:\s+\[.*\])?$ — i.e. is it
empty, or whitespace followed by a bracketed annotation reaching the
end of the line? -/
def matchTail (tail : List Char) : Bool :=
  tail.isEmpty ||
    (let w := tail.takeWhile pyIsSpace
     let r := tail.drop w.length
     !w.isEmpty &&
       (match r with
        | '[' :: r2 => r2.getLast? == some ']'
        | _ => false))

/-- The lazy (.+?) group: the shortest nonempty prefix whose remainder
satisfies `matchTail` (the remainder [] always does). -/
def takeLazyName : List Char → List Char
  | [] => []
  | c :: t => if matchTail t then [c] else c :: takeLazyName t

/-- re.match of ^(\*)?\s*(\d+)\.\s+(.+?)(?:\s+\[.*\])?$ against a
cleaned sink line, returning (leading star, digit run, raw name). -/
def matchSinkLine (cs : List Char) : Option (Bool × String × String) :=
  let star : Bool := cs.head? == some '*'
  let cs1 := if star then cs.tail else cs
  let cs2 := cs1.dropWhile pyIsSpace
  let digits := cs2.takeWhile Char.isDigit
  if digits.isEmpty then none
  else
    match cs2.drop digits.length with
    | '.' :: cs3 =>
      let ws := cs3.takeWhile pyIsSpace
      if ws.isEmpty then none
      else
        let body := cs3.drop ws.length
        match body with
        | [] =>
          -- regex backtracking: \s+ gives up its last character to (.+?)
          if 2 ≤ ws.length then
            match ws.getLast? with
            | some w => some (star, String.mk digits, String.mk [w])
            | none => none
          else none
        | c :: t => some (star, String.mk digits, String.mk (takeLazyName (c :: t)))
    | _ => none

/-- One step of the get_sinks loop; the state is (in_sinks, sinks). -/
def sinkStep (st : Bool × List Sink) (rawLine : String) : Bool × List Sink :=
  let l := pyStrip rawLine
  if pyIn "Sinks:" l then (true, st.2)
  else if pyIn "Sources:" l then (false, st.2)
  else if st.1 && !l.isEmpty then
    let clean := stripChars (stripBox l.data)
    if clean.isEmpty then st
    else
      match matchSinkLine clean with
      | some (star, sid, sname) => (st.1, st.2 ++ [⟨sid, pyStrip sname, star⟩])
      | none => st
  else st

/-- get_sinks over an already split transcript. -/
def get_sinksLines (ls : List String) : List Sink :=
  (ls.foldl sinkStep (false, [])).2

/-- PipeWireManager.get_sinks applied to captured `wpctl status` stdout. -/
def get_sinks (stdout : String) : List Sink :=
  get_sinksLines (pySplitlines stdout)

/-! ## Config cleanup on device removal
(Blueteeth.remove_device_interactive, lines 669-673) -/

/-- The config mutation after a successful removal: drop the mac from
trusted_devices (Python list.remove: first occurrence) and clear
last_device if it pointed at the removed mac. -/
def removeCleanup (cfg : Config) (mac : String) : Config :=
  let trusted :=
    if mac ∈ cfg.trusted_devices then cfg.trusted_devices.erase mac
    else cfg.trusted_devices
  let last := if cfg.last_device = some mac then none else cfg.last_device
  { cfg with trusted_devices := trusted, last_device := last }

/-- A small concrete config (the source's default config). -/
def cfg0 : Config := ⟨none, [], "a2dp_sink"⟩

/-! ## Helper lemmas -/

lemma decodeStrList_map (l : List String) :
    decodeStrList (JVal.jarr (l.map JVal.jstr)) = some l := by
  induction l with
  | nil => rfl
  | cons a t ih =>
    simp only [decodeStrList, List.map_cons, List.foldr_cons] at ih ⊢
    rw [ih]
    rfl

lemma getLast?_append_singleton {α : Type} (l : List α) (a : α) :
    (l ++ [a]).getLast? = some a :=
  List.getLast?_concat l

/-- connect_device either takes the shared success path (commitLast) or
fails with config and saves exactly as the initial trustAdd left them. -/
lemma connect_device_cases (cfg : Config) (mac stdout stderr requery : String) :
    (connect_device cfg mac stdout stderr requery =
       commitLast (trustAdd cfg mac).1 (trustAdd cfg mac).2 mac) ∨
    (∃ msg, connect_device cfg mac stdout stderr requery =
       { config := (trustAdd cfg mac).1, saves := (trustAdd cfg mac).2,
         success := false, message := msg }) := by
  simp only [connect_device]
  repeat first
    | exact Or.inl rfl
    | exact Or.inr ⟨_, rfl⟩
    | split

/-- The trusted_devices list is fixed by the initial trustAdd step and
never touched again inside connect_device. -/
lemma connect_device_trusted (cfg : Config) (mac stdout stderr requery : String) :
    (connect_device cfg mac stdout stderr requery).config.trusted_devices =
      (trustAdd cfg mac).1.trusted_devices := by
  simp only [connect_device, commitLast]
  repeat first | rfl | split

/-! ## Claim theorems -/

/-- Claim C1 (confirmed): whenever "br-connection-refused" occurs in
the stdout or the stderr of the connect transcript, connect
classification returns FAIL with the fixed refusal guidance message,
whatever else the transcript contains. -/
theorem C1_refusal_priority (cfg : Config) (mac stdout stderr requery : String)
    (h : pyIn "br-connection-refused" stdout = true ∨
         pyIn "br-connection-refused" stderr = true) :
    (connect_device cfg mac stdout stderr requery).success = false ∧
    (connect_device cfg mac stdout stderr requery).message =
      "Connection refused - ensure device is powered on, in pairing mode, and not connected to another device" := by
  have hs : connectionRefusedSig stdout stderr = true := by
    rcases h with h | h <;> simp [connectionRefusedSig, h]
  simp [connect_device, hs]

/-- Witness for C1 at a concrete refused transcript. -/
theorem C1_refusal_priority_witness :
    (connect_device cfg0 "AA" "Connected: yes\nbr-connection-refused" "" "").success = false ∧
    (connect_device cfg0 "AA" "Connected: yes\nbr-connection-refused" "" "").message =
      "Connection refused - ensure device is powered on, in pairing mode, and not connected to another device" :=
  C1_refusal_priority cfg0 "AA" "Connected: yes\nbr-connection-refused" "" ""
    (Or.inl (by decide))

/-- Claim C4 counterexample: this pair transcript contains
"Failed to pair" and "org.bluez.Error.AuthenticationFailed" and none of
the higher-priority literals, yet classification does not produce the
PIN-guidance message: re.search extracts the FIRST error token, here
"Foo", so the message is "Pairing failed: Foo". -/
theorem C4_counterexample :
    pyIn "Failed to pair" "Failed to pair\norg.bluez.Error.Foo org.bluez.Error.AuthenticationFailed" = true ∧
    pyIn "org.bluez.Error.AuthenticationFailed" "Failed to pair\norg.bluez.Error.Foo org.bluez.Error.AuthenticationFailed" = true ∧
    pyIn "Pairing successful" "Failed to pair\norg.bluez.Error.Foo org.bluez.Error.AuthenticationFailed" = false ∧
    pyIn "Already Paired" "Failed to pair\norg.bluez.Error.Foo org.bluez.Error.AuthenticationFailed" = false ∧
    pyIn "Device not available" "Failed to pair\norg.bluez.Error.Foo org.bluez.Error.AuthenticationFailed" = false ∧
    pair_device "Failed to pair\norg.bluez.Error.Foo org.bluez.Error.AuthenticationFailed" =
      (false, "Pairing failed: Foo") := by
  decide

/-- Claim C4 as amended: pair classification follows the priority list,
and in the failed branch the message is decided by the FIRST extracted
org.bluez.Error token; when that first token is AuthenticationFailed the
result is FAIL with the PIN-guidance message (never the generic
fallback). -/
theorem C4_amended (stdout : String)
    (h1 : pyIn "Pairing successful" stdout = false)
    (h2 : pyIn "Already Paired" stdout = false)
    (h3 : pyIn "Device not available" stdout = false)
    (h4 : pyIn "Failed to pair" stdout = true)
    (h5 : extractBluezError stdout = some "AuthenticationFailed") :
    pair_device stdout = (false, "Authentication failed - check PIN or try again") := by
  simp [pair_device, h1, h2, h3, h4, h5]

/-- Witness for C4_amended at a concrete transcript. -/
theorem C4_amended_witness :
    pair_device "Failed to pair\norg.bluez.Error.AuthenticationFailed" =
      (false, "Authentication failed - check PIN or try again") :=
  C4_amended "Failed to pair\norg.bluez.Error.AuthenticationFailed"
    (by decide) (by decide) (by decide) (by decide) (by decide)

/-- Claim C5 counterexample: a connect attempt that ends in FAIL can
still mutate and persist the config - the mac is appended to
trusted_devices (and saved) before the connect attempt is classified. -/
theorem C5_counterexample :
    (connect_device cfg0 "AA" "Failed to connect" "" "").success = false ∧
    (connect_device cfg0 "AA" "Failed to connect" "" "").config ≠ cfg0 ∧
    (connect_device cfg0 "AA" "Failed to connect" "" "").saves ≠ [] := by
  decide

/-- Claim C5 as amended: every in-memory config mutation performed by
connect_device is written back immediately (at the end, the last saved
snapshot - or the initial config when nothing was saved - equals the
in-memory config); a FAIL attempt leaves the config exactly as produced
by the initial trusted-devices addition, which is the unmodified input
config whenever the mac was already trusted. -/
theorem C5_amended (cfg : Config) (mac stdout stderr requery : String) :
    ((connect_device cfg mac stdout stderr requery).saves.getLast?.getD cfg =
      (connect_device cfg mac stdout stderr requery).config) ∧
    ((connect_device cfg mac stdout stderr requery).success = false →
      (connect_device cfg mac stdout stderr requery).config = (trustAdd cfg mac).1) ∧
    (mac ∈ cfg.trusted_devices → (trustAdd cfg mac).1 = cfg) := by
  refine ⟨?_, ?_, fun hm => by simp [trustAdd, hm]⟩
  · rcases connect_device_cases cfg mac stdout stderr requery with h | ⟨msg, h⟩
    · rw [h]; simp [commitLast, getLast?_append_singleton]
    · rw [h]
      by_cases hm : mac ∈ cfg.trusted_devices <;> simp [trustAdd, hm]
  · intro hf
    rcases connect_device_cases cfg mac stdout stderr requery with h | ⟨msg, h⟩
    · rw [h] at hf; simp [commitLast] at hf
    · rw [h]

/-- Witness for C5_amended at a concrete failing transcript. -/
theorem C5_amended_witness :
    ((connect_device cfg0 "AA" "Failed to connect" "" "").saves.getLast?.getD cfg0 =
      (connect_device cfg0 "AA" "Failed to connect" "" "").config) ∧
    (connect_device cfg0 "AA" "Failed to connect" "" "").config = (trustAdd cfg0 "AA").1 := by
  have h := C5_amended cfg0 "AA" "Failed to connect" "" ""
  exact ⟨h.1, h.2.1 (by decide)⟩

/-- Claim C9 (confirmed): saving the three-field config record and
loading it back yields a field-for-field equal record. -/
theorem C9_roundtrip (c : Config) : load_config (save_config c) = some c := by
  obtain ⟨l, t, d⟩ := c
  cases l <;>
    simp [save_config, load_config, decodeLast, decodeStr, decodeStrList_map,
      List.lookup]

/-- Claim C10 (confirmed): both config-mutating operations - the
trusted-devices addition performed by connect_device and the cleanup
performed on device removal - preserve duplicate-freeness of
trusted_devices. -/
theorem C10_nodup :
    (∀ (cfg : Config) (mac stdout stderr requery : String),
        cfg.trusted_devices.Nodup →
        (connect_device cfg mac stdout stderr requery).config.trusted_devices.Nodup) ∧
    (∀ (cfg : Config) (mac : String),
        cfg.trusted_devices.Nodup → (removeCleanup cfg mac).trusted_devices.Nodup) := by
  constructor
  · intro cfg mac stdout stderr requery h
    rw [connect_device_trusted]
    unfold trustAdd
    split
    · exact h
    · rename_i hmem
      exact List.Nodup.append h (List.nodup_singleton mac)
        (List.disjoint_singleton.mpr hmem)
  · intro cfg mac h
    unfold removeCleanup
    split
    · exact h.erase mac
    · exact h

/-- Witness for C10 at concrete configs. -/
theorem C10_nodup_witness :
    (connect_device ⟨none, ["BB"], "a2dp_sink"⟩ "AA" "" "" "").config.trusted_devices.Nodup ∧
    (removeCleanup ⟨some "BB", ["AA", "BB"], "a2dp_sink"⟩ "BB").trusted_devices.Nodup :=
  ⟨C10_nodup.1 ⟨none, ["BB"], "a2dp_sink"⟩ "AA" "" "" "" (by decide),
   C10_nodup.2 ⟨some "BB", ["AA", "BB"], "a2dp_sink"⟩ "BB" (by decide)⟩

lemma lookup_upsert_self (m : List (String × String)) (k v : String) :
    (upsert m k v).lookup k = some v := by
  induction m with
  | nil => simp [upsert, List.lookup]
  | cons p rest ih =>
    obtain ⟨k2, v2⟩ := p
    by_cases h : k2 = k
    · simp [upsert, h, List.lookup]
    · have hbeq : (k == k2) = false := beq_eq_false_iff_ne.mpr fun e => h e.symm
      simp only [upsert, h, ite_false, List.lookup, hbeq]
      exact ih

lemma lookup_upsert_other (m : List (String × String)) (k k2 v : String)
    (h : k ≠ k2) : (upsert m k2 v).lookup k = m.lookup k := by
  have hbeq : (k == k2) = false := beq_eq_false_iff_ne.mpr h
  induction m with
  | nil => simp [upsert, List.lookup, hbeq]
  | cons p rest ih =>
    obtain ⟨k3, v3⟩ := p
    by_cases h3 : k3 = k2
    · subst h3
      simp [upsert, List.lookup, hbeq]
    · simp only [upsert, h3, ite_false, List.lookup]
      by_cases hk : k = k3
      · have hb : (k == k3) = true := beq_iff_eq.mpr hk
        simp [hb]
      · have hb : (k == k3) = false := beq_eq_false_iff_ne.mpr hk
        simp only [hb]
        exact ih

lemma lookup_deviceInfoLines_skip (ls : List String) (m : List (String × String))
    (k : String) (h : ∀ l ∈ ls, ∀ v, lineKV l ≠ some (k, v)) :
    (deviceInfoLines m ls).lookup k = m.lookup k := by
  induction ls generalizing m with
  | nil => rfl
  | cons l t ih =>
    have ht : ∀ l2 ∈ t, ∀ v, lineKV l2 ≠ some (k, v) :=
      fun l2 hl2 => h l2 (List.mem_cons_of_mem _ hl2)
    rcases hkv : lineKV l with _ | ⟨k2, v2⟩
    · show (deviceInfoLines (match lineKV l with
        | some (k2, v2) => upsert m k2 v2
        | none => m) t).lookup k = m.lookup k
      rw [hkv]
      exact ih m ht
    · have hk2 : k ≠ k2 := fun e => h l (List.mem_cons_self _ _) v2 (by rw [hkv, e])
      show (deviceInfoLines (match lineKV l with
        | some (k2, v2) => upsert m k2 v2
        | none => m) t).lookup k = m.lookup k
      rw [hkv]
      rw [ih _ ht]
      exact lookup_upsert_other m k k2 v2 hk2

/-- Claim C7 (confirmed): the device-info parser is last-line-wins: if
the re-assembled transcript lines are ls1 ++ l :: ls2, line l yields the
binding (k, v), and no line of ls2 yields a binding for k, then the
resulting map sends k to v. -/
theorem C7_info_last_wins (mac stdout : String) (ls1 : List String) (l : String)
    (ls2 : List String) (k v : String)
    (hsplit : pySplitlines stdout = ls1 ++ l :: ls2)
    (hkv : lineKV l = some (k, v))
    (hafter : ∀ l2 ∈ ls2, ∀ v2, lineKV l2 ≠ some (k, v2)) :
    infoGet (get_device_info mac stdout) k = some v := by
  unfold get_device_info infoGet
  rw [hsplit]
  unfold deviceInfoLines
  rw [List.foldl_append]
  have hcons : ∀ (m : List (String × String)),
      List.foldl (fun m line =>
        match lineKV line with
        | some (k, v) => upsert m k v
        | none => m) m (l :: ls2) =
      List.foldl (fun m line =>
        match lineKV line with
        | some (k, v) => upsert m k v
        | none => m) (upsert m k v) ls2 := by
    intro m
    simp [List.foldl_cons, hkv]
  rw [hcons]
  have := lookup_deviceInfoLines_skip ls2 (upsert (List.foldl (fun m line =>
      match lineKV line with
      | some (k, v) => upsert m k v
      | none => m) [("mac", mac)] ls1) k v) k hafter
  unfold deviceInfoLines at this
  rw [this]
  exact lookup_upsert_self _ k v

/-- Witness for C7: two lines binding "Connected"; the later wins. -/
theorem C7_info_last_wins_witness :
    infoGet (get_device_info "M" "Connected: no\nConnected: yes") "Connected" =
      some "yes" :=
  C7_info_last_wins "M" "Connected: no\nConnected: yes" ["Connected: no"]
    "Connected: yes" [] "Connected" "yes" (by decide) (by decide) (by simp)

/-- Claim C2 (confirmed): with no refusal substring and both
"Connected: yes" and "Failed to connect" present on stdout lines, the
classifier consults the live re-query: Connected=yes there gives
SUCCESS with last_device committed and persisted, anything else gives
FAIL with the established-then-lost message. -/
theorem C2_ambiguous_requery (cfg : Config) (mac stdout stderr requery : String)
    (h1 : pyIn "br-connection-refused" stdout = false)
    (h2 : pyIn "br-connection-refused" stderr = false)
    (hy : ∃ l ∈ pySplitlines stdout, pyIn "Connected: yes" l = true)
    (hf : ∃ l ∈ pySplitlines stdout, pyIn "Failed to connect" l = true) :
    (infoGet (get_device_info mac requery) "Connected" = some "yes" →
      (connect_device cfg mac stdout stderr requery).success = true ∧
      (connect_device cfg mac stdout stderr requery).config.last_device = some mac ∧
      (connect_device cfg mac stdout stderr requery).saves.getLast? =
        some (connect_device cfg mac stdout stderr requery).config) ∧
    (infoGet (get_device_info mac requery) "Connected" ≠ some "yes" →
      (connect_device cfg mac stdout stderr requery).success = false ∧
      (connect_device cfg mac stdout stderr requery).message =
        "Connection was established but immediately lost - device may have rejected the connection") := by
  have hrs : connectionRefusedSig stdout stderr = false := by
    simp [connectionRefusedSig, h1, h2]
  have hys : connectedYesSig stdout = true := by
    simpa [connectedYesSig, List.any_eq_true] using hy
  have hfs : connectionFailedSig stdout = true := by
    simpa [connectionFailedSig, List.any_eq_true] using hf
  constructor
  · intro h
    simp [connect_device, hrs, hys, hfs, h, commitLast, getLast?_append_singleton]
  · intro h
    simp [connect_device, hrs, hys, hfs, h, commitLast]

/-- Witness for C2: both branches at concrete transcripts. -/
theorem C2_ambiguous_requery_witness :
    ((connect_device cfg0 "AA" "Connected: yes\nFailed to connect" "" "Connected: yes").success = true ∧
     (connect_device cfg0 "AA" "Connected: yes\nFailed to connect" "" "Connected: yes").config.last_device = some "AA" ∧
     (connect_device cfg0 "AA" "Connected: yes\nFailed to connect" "" "Connected: yes").saves.getLast? =
       some (connect_device cfg0 "AA" "Connected: yes\nFailed to connect" "" "Connected: yes").config) ∧
    ((connect_device cfg0 "AA" "Connected: yes\nFailed to connect" "" "Connected: no").success = false ∧
     (connect_device cfg0 "AA" "Connected: yes\nFailed to connect" "" "Connected: no").message =
       "Connection was established but immediately lost - device may have rejected the connection") :=
  ⟨(C2_ambiguous_requery cfg0 "AA" "Connected: yes\nFailed to connect" "" "Connected: yes"
      (by decide) (by decide)
      ⟨"Connected: yes", by decide, by decide⟩
      ⟨"Failed to connect", by decide, by decide⟩).1 (by decide),
   (C2_ambiguous_requery cfg0 "AA" "Connected: yes\nFailed to connect" "" "Connected: no"
      (by decide) (by decide)
      ⟨"Connected: yes", by decide, by decide⟩
      ⟨"Failed to connect", by decide, by decide⟩).2 (by decide)⟩

lemma containsSub_iff (needle hay : List Char) :
    containsSub needle hay = true ↔ needle <:+: hay := by
  induction hay with
  | nil => simp [containsSub, List.infix_nil, List.isEmpty_iff]
  | cons c t ih =>
    simp [containsSub, List.infix_cons_iff, List.isPrefixOf_iff_prefix, ih]

lemma splitlinesAux_part (n : Nat) :
    ∀ (cs acc : List Char) (l : String),
      l ∈ splitlinesAux n acc cs → l.data <:+: (acc.reverse ++ cs) := by
  induction n with
  | zero =>
    intro cs acc l hl
    simp only [splitlinesAux] at hl
    split at hl
    · simp at hl
    · simp at hl
      subst hl
      exact (List.prefix_append _ _).isInfix
  | succ n ih =>
    intro cs acc l hl
    match cs with
    | [] =>
      simp only [splitlinesAux] at hl
      split at hl
      · simp at hl
      · simp at hl
        subst hl
        exact (List.prefix_append _ _).isInfix
    | c :: t =>
      simp only [splitlinesAux] at hl
      by_cases hc : c = '\r'
      · rw [if_pos hc] at hl
        rcases List.mem_cons.mp hl with h | h
        · subst h
          exact (List.prefix_append _ _).isInfix
        · have h2 := ih _ [] l h
          simp only [List.reverse_nil, List.nil_append] at h2
          have h3 : (if t.head? = some '\n' then t.tail else t) <:+: c :: t := by
            split
            · exact ((List.tail_suffix t).trans (List.suffix_cons c t)).isInfix
            · exact (List.suffix_cons c t).isInfix
          exact (h2.trans h3).trans (List.suffix_append _ _).isInfix
      · rw [if_neg hc] at hl
        by_cases hb : isLineBreak c
        · rw [if_pos hb] at hl
          rcases List.mem_cons.mp hl with h | h
          · subst h
            exact (List.prefix_append _ _).isInfix
          · have h2 := ih _ [] l h
            simp only [List.reverse_nil, List.nil_append] at h2
            exact (h2.trans (List.suffix_cons c t).isInfix).trans
              (List.suffix_append _ _).isInfix
        · rw [if_neg hb] at hl
          have h2 := ih _ (c :: acc) l hl
          simpa [List.append_assoc] using h2

lemma mem_pySplitlines_part (s l : String) (h : l ∈ pySplitlines s) :
    l.data <:+: s.data := by
  have := splitlinesAux_part s.data.length s.data [] l h
  simpa using this

lemma pyIn_of_mem_line (x s l : String) (hmem : l ∈ pySplitlines s)
    (h : pyIn x l = true) : pyIn x s = true := by
  unfold pyIn at h ⊢
  exact (containsSub_iff _ _).mpr
    (((containsSub_iff _ _).mp h).trans (mem_pySplitlines_part s l hmem))

/-- Claim C3 counterexample: in the fourth classifier branch the
returned message is the whitespace-STRIPPED first org.bluez.Error line,
not that line itself: with the error line "  org.bluez.Error.Failed
something" (leading spaces) the message differs from the line. -/
theorem C3_counterexample :
    (pySplitlines "Failed to connect\n  org.bluez.Error.Failed something").find?
        (fun l => pyIn "org.bluez.Error" l) =
      some "  org.bluez.Error.Failed something" ∧
    (connect_device cfg0 "AA" "Failed to connect\n  org.bluez.Error.Failed something" "" "").success = false ∧
    (connect_device cfg0 "AA" "Failed to connect\n  org.bluez.Error.Failed something" "" "").message =
      "org.bluez.Error.Failed something" ∧
    (connect_device cfg0 "AA" "Failed to connect\n  org.bluez.Error.Failed something" "" "").message ≠
      "  org.bluez.Error.Failed something" := by
  decide

/-- Claim C3 as amended: when the connect transcript reaches the fourth
classifier branch (no refusal, not both Connected-yes and
Failed-to-connect, no uncontradicted Connection-successful) and stdout
contains "Failed to connect", classification fails and the message is
the whitespace-stripped first stdout line containing "org.bluez.Error"
when one exists, else the generic "Connection failed". -/
theorem C3_amended (cfg : Config) (mac stdout stderr requery : String)
    (h1 : connectionRefusedSig stdout stderr = false)
    (h2 : ¬(connectedYesSig stdout = true ∧ connectionFailedSig stdout = true))
    (h3 : ¬(pyIn "Connection successful" stdout = true ∧
            connectionFailedSig stdout = false))
    (h4 : pyIn "Failed to connect" stdout = true) :
    (connect_device cfg mac stdout stderr requery).success = false ∧
    ((connect_device cfg mac stdout stderr requery).message =
      match (pySplitlines stdout).find? (fun l => pyIn "org.bluez.Error" l) with
      | some l => pyStrip l
      | none => "Connection failed") := by
  have hb2 : (connectedYesSig stdout && connectionFailedSig stdout) = false := by
    cases hcy : connectedYesSig stdout <;> cases hcf : connectionFailedSig stdout <;>
      simp_all
  have hb3 : (pyIn "Connection successful" stdout && !connectionFailedSig stdout) = false := by
    cases hcs : pyIn "Connection successful" stdout <;>
      cases hcf : connectionFailedSig stdout <;> simp_all
  refine ⟨by simp [connect_device, h1, hb2, hb3, h4], ?_⟩
  rcases hfind : (pySplitlines stdout).find? (fun l => pyIn "org.bluez.Error" l)
    with _ | ⟨l⟩
  · simp only [connect_device, h1, hb2, hb3, h4, Bool.false_eq_true, if_false,
      ite_false, if_true, ite_true, hfind]
    split <;> rfl
  · have hmem := List.mem_of_find?_eq_some hfind
    have hp : pyIn "org.bluez.Error" l = true := List.find?_some hfind
    have hin : pyIn "org.bluez.Error" stdout = true :=
      pyIn_of_mem_line "org.bluez.Error" stdout l hmem hp
    simp [connect_device, h1, hb2, hb3, h4, hin, hfind]

/-- Witness for C3_amended at a concrete failing transcript carrying a
bluez error line. -/
theorem C3_amended_witness :
    (connect_device cfg0 "AA" "Failed to connect: org.bluez.Error.Failed" "" "").success = false ∧
    ((connect_device cfg0 "AA" "Failed to connect: org.bluez.Error.Failed" "" "").message =
      match (pySplitlines "Failed to connect: org.bluez.Error.Failed").find?
          (fun l => pyIn "org.bluez.Error" l) with
      | some l => pyStrip l
      | none => "Connection failed") :=
  C3_amended cfg0 "AA" "Failed to connect: org.bluez.Error.Failed" "" ""
    (by decide) (by decide) (by decide) (by decide)

lemma splitAll_ne_nil (sep : Char) (cs : List Char) : splitAll sep cs ≠ [] := by
  cases cs with
  | nil => simp [splitAll]
  | cons c t =>
    simp only [splitAll]
    split
    · simp
    · split <;> simp

lemma splitAll_cons (sep c : Char) (t : List Char) :
    splitAll sep (c :: t) =
      if c = sep then [] :: splitAll sep t
      else match splitAll sep t with
        | [] => [[c]]
        | f :: fs => (c :: f) :: fs := rfl

lemma splitN_zero (sep : Char) (cs : List Char) : splitN sep 0 cs = [cs] := by
  cases cs <;> rfl

lemma splitN_one_cons (sep c : Char) (t : List Char) :
    splitN sep 1 (c :: t) =
      if c = sep then [] :: splitN sep 0 t
      else match splitN sep 1 t with
        | [] => [[c]]
        | f :: fs => (c :: f) :: fs := rfl

lemma splitN_two_cons (sep c : Char) (t : List Char) :
    splitN sep 2 (c :: t) =
      if c = sep then [] :: splitN sep 1 t
      else match splitN sep 2 t with
        | [] => [[c]]
        | f :: fs => (c :: f) :: fs := rfl

lemma joinSep_splitAll (sep : Char) (cs : List Char) :
    joinSep sep (splitAll sep cs) = cs := by
  induction cs with
  | nil => rfl
  | cons c t ih =>
    rw [splitAll_cons]
    by_cases hc : c = sep
    · rw [if_pos hc]
      rcases h : splitAll sep t with _ | ⟨f, fs⟩
      · exact absurd h (splitAll_ne_nil sep t)
      · rw [h] at ih
        show sep :: joinSep sep (f :: fs) = c :: t
        rw [ih, hc]
    · rw [if_neg hc]
      rcases h : splitAll sep t with _ | ⟨f, fs⟩
      · exact absurd h (splitAll_ne_nil sep t)
      · rw [h] at ih
        cases fs with
        | nil =>
          simp only [joinSep] at ih
          show c :: f = c :: t
          rw [ih]
        | cons g gs =>
          simp only [joinSep] at ih ⊢
          show (c :: f) ++ sep :: joinSep sep (g :: gs) = c :: t
          rw [List.cons_append, ih]

lemma splitN_one (sep : Char) (cs : List Char) :
    splitN sep 1 cs =
      match splitAll sep cs with
      | f0 :: f1 :: rest => [f0, joinSep sep (f1 :: rest)]
      | l => l := by
  induction cs with
  | nil => rfl
  | cons c t ih =>
    rw [splitN_one_cons, splitAll_cons]
    by_cases hc : c = sep
    · rw [if_pos hc, if_pos hc, splitN_zero]
      rcases h : splitAll sep t with _ | ⟨f0, rest⟩
      · exact absurd h (splitAll_ne_nil sep t)
      · have hj := joinSep_splitAll sep t
        rw [h] at hj
        show [[], t] = [[], joinSep sep (f0 :: rest)]
        rw [hj]
    · rw [if_neg hc, if_neg hc]
      rcases h : splitAll sep t with _ | ⟨f0, rest⟩
      · exact absurd h (splitAll_ne_nil sep t)
      · rw [h] at ih
        rw [ih]
        rcases rest with _ | ⟨f1, rest2⟩ <;> rfl

lemma splitN_two (sep : Char) (cs : List Char) :
    splitN sep 2 cs =
      match splitAll sep cs with
      | f0 :: f1 :: f2 :: rest => [f0, f1, joinSep sep (f2 :: rest)]
      | l => l := by
  induction cs with
  | nil => rfl
  | cons c t ih =>
    rw [splitN_two_cons, splitAll_cons]
    by_cases hc : c = sep
    · rw [if_pos hc, if_pos hc, splitN_one]
      rcases h : splitAll sep t with _ | ⟨f0, rest⟩
      · exact absurd h (splitAll_ne_nil sep t)
      · rcases rest with _ | ⟨f1, rest2⟩ <;> rfl
    · rw [if_neg hc, if_neg hc]
      rcases h : splitAll sep t with _ | ⟨f0, rest⟩
      · exact absurd h (splitAll_ne_nil sep t)
      · rw [h] at ih
        rw [ih]
        rcases rest with _ | ⟨f1, rest2⟩
        · rfl
        · rcases rest2 with _ | ⟨f2, rest3⟩ <;> rfl

lemma parseDeviceLine_eq (line : String) :
    parseDeviceLine line = parseDeviceLineSpaceSpec line := by
  unfold parseDeviceLine parseDeviceLineSpaceSpec
  by_cases hp : "Device".data.isPrefixOf line.data
  · rw [if_pos hp, if_pos hp, splitN_two]
    rcases h : splitAll ' ' line.data with _ | ⟨f0, _ | ⟨f1, _ | ⟨f2, rest3⟩⟩⟩
    · exact absurd h (splitAll_ne_nil _ _)
    · rfl
    · rfl
    · rfl
  · rw [if_neg hp, if_neg hp]

/-- Claim C6 counterexample: the source splits device lines at single
SPACE characters (line.split(' ', 2)), not at general whitespace.  On
the tab-bearing line below the code takes "My" as the mac and
"Headphones" as the name, while the claim's whitespace-field reading
yields mac "AA:BB:CC:DD:EE:FF" and name "My Headphones". -/
theorem C6_counterexample :
    get_devices "Device\tAA:BB:CC:DD:EE:FF My Headphones" =
      [⟨"My", "Headphones"⟩] ∧
    get_devicesClaim "Device\tAA:BB:CC:DD:EE:FF My Headphones" =
      [⟨"AA:BB:CC:DD:EE:FF", "My Headphones"⟩] ∧
    get_devices "Device\tAA:BB:CC:DD:EE:FF My Headphones" ≠
      get_devicesClaim "Device\tAA:BB:CC:DD:EE:FF My Headphones" := by
  decide

/-- Claim C6 as amended: for each line starting with "Device" the
parser splits at the first two single SPACE characters (equivalently:
space-separated fields, the remainder rejoined with spaces preserving
internal whitespace), discards the first field, takes the second as the
mac and the remainder as the name, ignoring all other lines and keeping
transcript order; in particular any transcript containing the line
"Device AA:BB:CC:DD:EE:FF My Headphones" yields that device record. -/
theorem C6_amended :
    (∀ stdout : String, get_devices stdout = get_devicesSpaceSpec stdout) ∧
    (∀ stdout : String,
      "Device AA:BB:CC:DD:EE:FF My Headphones" ∈ pySplitlines stdout →
      (⟨"AA:BB:CC:DD:EE:FF", "My Headphones"⟩ : Device) ∈ get_devices stdout) := by
  constructor
  · intro s
    unfold get_devices get_devicesSpaceSpec
    rw [funext parseDeviceLine_eq]
  · intro s hmem
    exact List.mem_filterMap.mpr
      ⟨"Device AA:BB:CC:DD:EE:FF My Headphones", hmem, by decide⟩

/-- Witness for C6_amended at a concrete transcript. -/
theorem C6_amended_witness :
    get_devices "scan on\nDevice AA:BB:CC:DD:EE:FF My Headphones" =
      get_devicesSpaceSpec "scan on\nDevice AA:BB:CC:DD:EE:FF My Headphones" ∧
    (⟨"AA:BB:CC:DD:EE:FF", "My Headphones"⟩ : Device) ∈
      get_devices "scan on\nDevice AA:BB:CC:DD:EE:FF My Headphones" :=
  ⟨C6_amended.1 "scan on\nDevice AA:BB:CC:DD:EE:FF My Headphones",
   C6_amended.2 "scan on\nDevice AA:BB:CC:DD:EE:FF My Headphones" (by decide)⟩

lemma sinkFold_no_marker (ls : List String) (acc : List Sink)
    (h : ∀ l ∈ ls, pyIn "Sinks:" (pyStrip l) = false) :
    ls.foldl sinkStep (false, acc) = (false, acc) := by
  induction ls generalizing acc with
  | nil => rfl
  | cons l t ih =>
    have hl := h l (List.mem_cons_self _ _)
    have ht : ∀ l2 ∈ t, pyIn "Sinks:" (pyStrip l2) = false :=
      fun l2 h2 => h l2 (List.mem_cons_of_mem _ h2)
    rw [List.foldl_cons]
    have hstep : sinkStep (false, acc) l = (false, acc) := by
      simp [sinkStep, hl]
    rw [hstep]
    exact ih acc ht

lemma get_sinksLines_no_marker (ls : List String)
    (h : ∀ l ∈ ls, pyIn "Sinks:" (pyStrip l) = false) :
    get_sinksLines ls = [] := by
  unfold get_sinksLines
  rw [sinkFold_no_marker ls [] h]

lemma get_sinksLines_sources (ls1 ls2 : List String)
    (h : ∀ l ∈ ls2, pyIn "Sinks:" (pyStrip l) = false) :
    get_sinksLines (ls1 ++ "Sources:" :: ls2) = get_sinksLines ls1 := by
  unfold get_sinksLines
  rw [List.foldl_append]
  rcases hp : List.foldl sinkStep (false, []) ls1 with ⟨f1, acc1⟩
  rw [List.foldl_cons]
  have hsrc : sinkStep (f1, acc1) "Sources:" = (false, acc1) := by
    simp only [sinkStep]
    rw [show pyIn "Sinks:" (pyStrip "Sources:") = false from by decide]
    rw [show pyIn "Sources:" (pyStrip "Sources:") = true from by decide]
    simp
  rw [hsrc, sinkFold_no_marker ls2 acc1 h]

/-- Claim C8 counterexample: a later "Sinks:" marker re-enters the sink
section, so a sink-shaped line appearing after a "Sources:" marker CAN
produce a record, contradicting the claim's "never". -/
theorem C8_counterexample :
    pySplitlines "Sinks:\nSources:\nSinks:\n* 1. BT" =
      ["Sinks:", "Sources:", "Sinks:", "* 1. BT"] ∧
    get_sinks "Sinks:\nSources:\nSinks:\n* 1. BT" = [⟨"1", "BT", true⟩] := by
  decide

/-- Claim C8 as amended: inside a "Sinks:" section the line
"*   32. Samsung Monitor HDMI [vol: 0.75]" (box-drawing prefix allowed)
yields the record (id "32", name "Samsung Monitor HDMI", default), with
the bracketed annotation discarded; a transcript with no "Sinks:"
marker yields the empty list; and no record is produced from lines
after a "Sources:" marker unless a later "Sinks:" marker re-opens the
section. -/
theorem C8_amended :
    get_sinks "Sinks:\n│  *   32. Samsung Monitor HDMI [vol: 0.75]\nSources:\n* 99. Fake Sink" =
      [⟨"32", "Samsung Monitor HDMI", true⟩] ∧
    (∀ ls : List String, (∀ l ∈ ls, pyIn "Sinks:" (pyStrip l) = false) →
      get_sinksLines ls = []) ∧
    (∀ ls1 ls2 : List String, (∀ l ∈ ls2, pyIn "Sinks:" (pyStrip l) = false) →
      get_sinksLines (ls1 ++ "Sources:" :: ls2) = get_sinksLines ls1) :=
  ⟨by decide, get_sinksLines_no_marker, get_sinksLines_sources⟩

/-- Witness for C8_amended at concrete line lists. -/
theorem C8_amended_witness :
    get_sinksLines ["nothing here", "* 7. Speaker"] = [] ∧
    get_sinksLines (["Sinks:", "* 1. A"] ++ "Sources:" :: ["* 2. B"]) =
      get_sinksLines ["Sinks:", "* 1. A"] :=
  ⟨C8_amended.2.1 ["nothing here", "* 7. Speaker"] (by decide),
   C8_amended.2.2 ["Sinks:", "* 1. A"] ["* 2. B"] (by decide)⟩
